import Mathlib

/-!
Verification of the devstart project scaffolder.

Python strings are modelled as Lean `String` (or `List Char` where character
level reasoning is needed), filesystem paths as `List String` of components
(mirroring `pathlib.Path.parts`), and `dict` configuration records as Lean
structures with `Option` fields where the Python value may be `None`.
-/

/-! ## Escaping for TOML basic strings (src/devstart/generators/project.py) -/

/-- Python `str.replace` restricted to a single-character pattern: every
occurrence of `pat` is replaced by `rep`.  For one-character patterns this is
exactly Python's global, left-to-right, non-overlapping replacement. -/
def replaceChar (pat : Char) (rep : List Char) : List Char → List Char
  | [] => []
  | c :: cs => (if c = pat then rep else [c]) ++ replaceChar pat rep cs

/-- Embedding of `_escape_toml_string`:
`value.replace("\\", "\\\\").replace('"', '\\"')` — first every backslash is
doubled, then every double quote gets a preceding backslash. -/
def _escape_toml_string (s : List Char) : List Char :=
  replaceChar '"' ['\\', '"'] (replaceChar '\\' ['\\', '\\'] s)

/-- A character that may appear unescaped inside a TOML v1.0 basic string:
tab, or any character from U+0020 upward except the double quote, the
backslash and U+007F (DEL).  Control characters other than tab are excluded
by the TOML grammar. -/
def tomlBasicUnescaped (c : Char) : Bool :=
  c == '\t' || (decide (32 ≤ c.toNat) && !(c == '"') && !(c == '\\') && !(c == '\x7f'))

/-- A character that the escaping rule can embed safely: anything a basic
string tolerates once quotes and backslashes are escaped, i.e. tab or any
character from U+0020 upward except DEL. -/
def tomlEmbeddable (c : Char) : Bool :=
  c == '\t' || (decide (32 ≤ c.toNat) && !(c == '\x7f'))

/-- The single-character escape sequences of a TOML basic string. -/
def tomlEscSimple (c : Char) : Option Char :=
  if c = 'b' then some (Char.ofNat 8)
  else if c = 't' then some '\t'
  else if c = 'n' then some '\n'
  else if c = 'f' then some (Char.ofNat 12)
  else if c = 'r' then some '\r'
  else if c = '"' then some '"'
  else if c = '\\' then some '\\'
  else none

/-- Modelled from the TOML v1.0 double-quoted basic-string grammar (the
format `tomllib` parses in the repository's tests): un-escape the content of
a basic string.  The single-character escapes `\b \t \n \f \r \" \\` are
supported; any other use of a backslash, and any literal character the
grammar forbids (control characters other than tab, DEL), is a parse error,
signalled by `none`.  The grammar's `\uXXXX`/`\UXXXXXXXX` escapes are
omitted: the escaping rule under scrutiny never produces them (it only ever
emits a backslash followed by a backslash or a quote), and omitting them
only makes this parser stricter than TOML, so every round-trip proved here
also holds for the full grammar. -/
def tomlUnescape : List Char → Option (List Char)
  | [] => some []
  | c :: rest =>
    if c = '\\' then
      match rest with
      | [] => none
      | e :: rest2 =>
        match tomlEscSimple e with
        | some x => (tomlUnescape rest2).map (fun l => x :: l)
        | none => none
    else
      if tomlBasicUnescaped c then (tomlUnescape rest).map (fun l => c :: l)
      else none

lemma replaceChar_append (pat : Char) (rep : List Char) (l₁ l₂ : List Char) :
    replaceChar pat rep (l₁ ++ l₂) = replaceChar pat rep l₁ ++ replaceChar pat rep l₂ := by
  induction l₁ with
  | nil => rfl
  | cons c cs ih => simp [replaceChar, ih]

lemma escape_cons (c : Char) (s : List Char) :
    _escape_toml_string (c :: s)
      = (if c = '\\' then ['\\', '\\'] else if c = '"' then ['\\', '"'] else [c])
        ++ _escape_toml_string s := by
  by_cases h1 : c = '\\'
  · subst h1
    simp [_escape_toml_string, replaceChar]
  · by_cases h2 : c = '"'
    · subst h2
      simp [_escape_toml_string, replaceChar]
    · simp [_escape_toml_string, replaceChar, h1, h2]

lemma tomlUnescape_backslash (rest : List Char) :
    tomlUnescape ('\\' :: '\\' :: rest) = (tomlUnescape rest).map (fun l => '\\' :: l) := by
  simp [tomlUnescape, tomlEscSimple]

lemma tomlUnescape_quote (rest : List Char) :
    tomlUnescape ('\\' :: '"' :: rest) = (tomlUnescape rest).map (fun l => '"' :: l) := by
  simp [tomlUnescape, tomlEscSimple]

lemma tomlUnescape_plain (c : Char) (rest : List Char) (h1 : ¬ c = '\\')
    (hok : tomlBasicUnescaped c = true) :
    tomlUnescape (c :: rest) = (tomlUnescape rest).map (fun l => c :: l) := by
  cases rest with
  | nil => simp [tomlUnescape, h1, hok]
  | cons e r => simp [tomlUnescape, h1, hok]

/-- C3 (amended): the escaping rule round-trips through the TOML
basic-string grammar for every string whose characters the grammar can
represent at all, i.e. every string free of control characters (other than
tab) and DEL; quotes and backslashes are handled by the escaping itself. -/
theorem escape_toml_roundtrip (s : List Char) (h : ∀ c ∈ s, tomlEmbeddable c = true) :
    tomlUnescape (_escape_toml_string s) = some s := by
  induction s with
  | nil => simp [_escape_toml_string, replaceChar, tomlUnescape]
  | cons c cs ih =>
    have hc : tomlEmbeddable c = true := h c (by simp)
    have hrest : ∀ x ∈ cs, tomlEmbeddable x = true := fun x hx => h x (by simp [hx])
    rw [escape_cons]
    by_cases h1 : c = '\\'
    · subst h1
      simp [tomlUnescape_backslash, ih hrest]
    · by_cases h2 : c = '"'
      · subst h2
        simp [h1, tomlUnescape_quote, ih hrest]
      · have hok : tomlBasicUnescaped c = true := by
          simp only [tomlEmbeddable, tomlBasicUnescaped, Bool.or_eq_true,
            Bool.and_eq_true, Bool.not_eq_true', beq_eq_false_iff_ne, ne_eq,
            beq_iff_eq, decide_eq_true_eq] at hc ⊢
          tauto
        simp only [h1, h2, if_false, List.singleton_append]
        rw [tomlUnescape_plain c _ h1 hok, ih hrest]
        rfl

/-- C3 counterexample: a string containing a raw newline does not round-trip —
the escaping rule leaves the newline in place and the basic-string grammar
rejects it, so parsing fails instead of returning the original string. -/
theorem escape_roundtrip_newline_cex :
    tomlUnescape (_escape_toml_string ['a', '\n', 'b']) = none
    ∧ tomlUnescape (_escape_toml_string ['a', '\n', 'b']) ≠ some ['a', '\n', 'b'] := by
  constructor
  · decide
  · decide

/-- C3 witness: the spec's example input `O'Brien "Bob"` satisfies the amended
hypothesis and parses back to itself. -/
theorem escape_toml_roundtrip_witness :
    (∀ c ∈ "O\x27Brien \"Bob\"".data, tomlEmbeddable c = true)
    ∧ tomlUnescape (_escape_toml_string "O\x27Brien \"Bob\"".data)
        = some "O\x27Brien \"Bob\"".data :=
  ⟨by decide, escape_toml_roundtrip _ (by decide)⟩

/-! ## CLI validation (src/devstart/cli/main.py) -/

/-- Python's `keyword.kwlist` — the exact set recognised by
`keyword.iskeyword` (Python 3.10+). -/
def pythonKeywords : List String :=
  ["False", "None", "True", "and", "as", "assert", "async", "await", "break",
   "class", "continue", "def", "del", "elif", "else", "except", "finally",
   "for", "from", "global", "if", "import", "in", "is", "lambda", "nonlocal",
   "not", "or", "pass", "raise", "return", "try", "while", "with", "yield"]

/-- The module-level `_RESERVED_NAMES` set of `cli/main.py`. -/
def reservedNames : List String :=
  ["__init__", "__main__", "__pycache__", "test", "tests", "setup", "site"]

/-- Modelled from the spec: a representative finite stand-in for Python's
`sys.stdlib_module_names` (an interpreter-provided set, external to the
sources).  It contains the standard-library module names the claims mention
and, like the real set, does not contain `"tests"` or `"setup"`. -/
def stdlibSample : List String :=
  ["json", "os", "sys", "re", "keyword", "pathlib", "typing", "site", "test",
   "string", "math"]

/-- Full match of the regex body `[a-zA-Z_][a-zA-Z0-9_]*` — the character
classes are ASCII-only, exactly as in Python. -/
def isBareIdent : List Char → Bool
  | [] => false
  | c :: cs => (c.isAlpha || c = '_') && cs.all (fun d => d.isAlphanum || d = '_')

/-- Full match of the regex body `\d+\.\d+` (digits, dot, digits), with `\d`
modelled as an ASCII digit.  Python's `\d` also matches non-ASCII decimal
digits, so theorems about this model carry an ASCII-input hypothesis. -/
def isDigitsDotDigits (cs : List Char) : Bool :=
  let d1 := cs.takeWhile Char.isDigit
  let rest := cs.dropWhile Char.isDigit
  !d1.isEmpty && rest.head? == some '.' && !rest.tail.isEmpty
    && rest.tail.all Char.isDigit

/-- Python `re.match` of an `^...$`-anchored pattern: the body must match the
whole string, except that `$` also matches just before a single trailing
newline, so `body + "\n"` is accepted as well. -/
def pyFullAnchorMatch (core : List Char → Bool) (s : List Char) : Bool :=
  core s || (s.getLast? == some '\n' && core s.dropLast)

/-- Python `name.startswith("__")`. -/
def startsUU (l : List Char) : Bool := l.take 2 == ['_', '_']

/-- Python `name.endswith("__")`. -/
def endsUU (l : List Char) : Bool := l.reverse.take 2 == ['_', '_']

/-- The distinct failures `_validate_project_name` can report (each exits the
process with code 1 after printing its own message). -/
inductive NameError where
  | invalidFormat
  | isKeyword
  | isDunder
  | isReserved
deriving Repr, DecidableEq

/-- Embedding of `_validate_project_name`, with the interpreter-provided
`sys.stdlib_module_names` passed in as `stdlibModules`.  The checks run in
source order: regex shape, `keyword.iskeyword`, dunder shape, then
`_RESERVED_NAMES` / standard-library collision; `none` means the name is
accepted. -/
def _validate_project_name (stdlibModules : List String) (name : String) :
    Option NameError :=
  if !pyFullAnchorMatch isBareIdent name.data then some .invalidFormat
  else if name ∈ pythonKeywords then some .isKeyword
  else if startsUU name.data && endsUU name.data then some .isDunder
  else if name ∈ reservedNames ∨ name ∈ stdlibModules then some .isReserved
  else none

/-- Embedding of `_validate_python_version`: `re.match(r"^\d+\.\d+$", version)`
succeeded (`true` = accepted). -/
def _validate_python_version (version : String) : Bool :=
  pyFullAnchorMatch isDigitsDotDigits version.data

/-- The two validation failures the `new` command can report, in the order it
checks them. -/
inductive CliError where
  | nameInvalid (e : NameError)
  | versionInvalid
deriving Repr, DecidableEq

/-- The validation sequence of the `new` command: `_validate_project_name`
runs first and aborts the command on failure, so `_validate_python_version`
only runs (and can only be reported) when the name was accepted. -/
def validateConfig (stdlibModules : List String) (name version : String) :
    Option CliError :=
  match _validate_project_name stdlibModules name with
  | some e => some (.nameInvalid e)
  | none => if _validate_python_version version then none else some .versionInvalid

/-- Python `re.sub(r"[^a-zA-Z0-9_]", "_", s)` on one character: anything
outside the ASCII class `[a-zA-Z0-9_]` becomes an underscore. -/
def sanitizeChar (c : Char) : Char :=
  if c.isAlphanum || c = '_' then c else '_'

/-- Embedding of the `"."`-sentinel handling of the `new` command: for the
literal name `"."` the project name is derived from the current directory's
base name (sanitize, default if empty, underscore-prefix if digit-leading)
and current-directory mode is switched on; any other raw name (including an
absent one) passes through with current-directory mode off.  The built-in
default name lives in `devstart/defaults.py`, outside the sources, so it is
a parameter here. -/
def resolveName (defaultName : String) (rawName : Option String)
    (cwdBaseName : String) : Option String × Bool :=
  if rawName = some "." then
    let converted := cwdBaseName.data.map sanitizeChar
    let finalName : String :=
      match converted with
      | [] => defaultName
      | c :: cs => if c.isDigit then ⟨'_' :: c :: cs⟩ else ⟨c :: cs⟩
    (some finalName, true)
  else (rawName, false)

/-! ## Theorems about the validators -/

lemma getLast?_mem_self {l : List Char} {c : Char} (h : l.getLast? = some c) :
    c ∈ l := by
  have h2 : c ∈ l.getLast? := by simp [Option.mem_def, h]
  obtain ⟨hne, heq⟩ := List.mem_getLast?_eq_getLast h2
  rw [heq]
  exact List.getLast_mem hne

lemma bare_last_not_newline (l : List Char) (h : isBareIdent l = true) :
    l.getLast? ≠ some '\n' := by
  intro heq
  have hmem : '\n' ∈ l := getLast?_mem_self heq
  cases l with
  | nil => simp at hmem
  | cons c cs =>
    simp only [isBareIdent, Bool.and_eq_true] at h
    rcases List.mem_cons.mp hmem with rfl | hmem2
    · exact absurd h.1 (by decide)
    · exact absurd (List.all_eq_true.mp h.2 _ hmem2) (by decide)

lemma mem_no_newline_of_all {L : List String}
    (hall : L.all (fun k => k.data.getLast? != some '\n') = true) {s : String}
    (hmem : s ∈ L) : s.data.getLast? ≠ some '\n' := by
  have := List.all_eq_true.mp hall _ hmem
  simpa using this

lemma endsUU_false_of_newline (l : List Char) (h : l.getLast? = some '\n') :
    endsUU l = false := by
  have h2 : '\n' ∈ l.getLast? := by simp [Option.mem_def, h]
  have hl : l.dropLast ++ ['\n'] = l := List.dropLast_append_getLast? _ h2
  rw [endsUU, ← hl, List.reverse_append]
  simp

lemma validate_name_none_iff (stdlibModules : List String) (s : String) :
    _validate_project_name stdlibModules s = none
      ↔ (pyFullAnchorMatch isBareIdent s.data = true
          ∧ s ∉ pythonKeywords
          ∧ ¬(startsUU s.data = true ∧ endsUU s.data = true)
          ∧ s ∉ reservedNames ∧ s ∉ stdlibModules) := by
  unfold _validate_project_name
  split_ifs with h1 h2 h3 h4
  · simp_all
  · simp_all
  · simp only [Bool.and_eq_true] at h3
    simp_all
  · constructor
    · intro h
      simp at h
    · rintro ⟨-, -, -, hres, hstd⟩
      rcases h4 with h | h
      · exact absurd h hres
      · exact absurd h hstd
  · simp only [Bool.and_eq_true, not_and] at h3
    simp_all [not_or]

/-- The acceptance condition of the amended C5, written from the claim's
words: a name is accepted exactly when it is a bare identifier that is not a
language keyword, not a dunder-style name, not in the module's denylist and
not a standard-library module name — or when it is a bare identifier
followed by exactly one trailing newline, which the anchored regex also
accepts (Python's `$` matches before a final newline) and which the
remaining string-equality checks never match. -/
def specNameAccepted (stdlibModules : List String) (s : String) : Prop :=
  (isBareIdent s.data = true ∧ s ∉ pythonKeywords
     ∧ ¬(startsUU s.data = true ∧ endsUU s.data = true)
     ∧ s ∉ reservedNames ∧ s ∉ stdlibModules)
  ∨ (s.data.getLast? = some '\n' ∧ isBareIdent s.data.dropLast = true)

/-- C5 (amended): `_validate_project_name` accepts exactly the names
described by `specNameAccepted`: bare identifiers outside the keyword /
dunder / denylist / standard-library sets, plus any bare identifier followed
by one trailing newline.  The hypothesis states the (true) fact that no real
standard-library module name ends in a newline. -/
theorem validate_project_name_characterization (stdlibModules : List String)
    (s : String) (hstd : ∀ m ∈ stdlibModules, m.data.getLast? ≠ some '\n') :
    _validate_project_name stdlibModules s = none ↔ specNameAccepted stdlibModules s := by
  rw [validate_name_none_iff]
  by_cases hb : isBareIdent s.data = true
  · have hnl : s.data.getLast? ≠ some '\n' := bare_last_not_newline _ hb
    simp [specNameAccepted, pyFullAnchorMatch, hb, hnl]
  · by_cases hn : s.data.getLast? = some '\n'
    · by_cases hd : isBareIdent s.data.dropLast = true
      · have hkw : s ∉ pythonKeywords := fun hmem =>
          mem_no_newline_of_all (by decide) hmem hn
        have hres : s ∉ reservedNames := fun hmem =>
          mem_no_newline_of_all (by decide) hmem hn
        have hstd2 : s ∉ stdlibModules := fun hmem => hstd s hmem hn
        have hend : endsUU s.data = false := endsUU_false_of_newline _ hn
        simp [specNameAccepted, pyFullAnchorMatch, hb, hn, hd, hkw, hres,
          hstd2, hend]
      · simp only [Bool.not_eq_true] at hb hd
        simp [specNameAccepted, pyFullAnchorMatch, hb, hn, hd]
    · simp only [Bool.not_eq_true] at hb
      simp [specNameAccepted, pyFullAnchorMatch, hb, hn]

/-- C5 counterexample: the claim's accept side fails twice on the code.
`"tests"` is a bare identifier that is not a keyword, not dunder-style and
not a standard-library module, yet it is rejected through the module's
denylist; and `"abc\n"` is not a bare identifier at all, yet it is accepted
because the anchored regex also matches just before a trailing newline. -/
theorem validate_project_name_cex :
    (_validate_project_name stdlibSample "tests" = some .isReserved
      ∧ isBareIdent "tests".data = true
      ∧ "tests" ∉ pythonKeywords
      ∧ ¬(startsUU "tests".data = true ∧ endsUU "tests".data = true)
      ∧ "tests" ∉ stdlibSample)
    ∧ (_validate_project_name stdlibSample "abc\n" = none
      ∧ isBareIdent "abc\n".data = false) := by
  constructor
  · refine ⟨by decide, by decide, by decide, by decide, by decide⟩
  · exact ⟨by decide, by decide⟩

/-- C5 witness: the real standard-library set contains no newline-terminated
names, and the characterization evaluates as stated on the accepted name
`"my_app"`. -/
theorem validate_project_name_characterization_witness :
    (∀ m ∈ stdlibSample, m.data.getLast? ≠ some '\n')
    ∧ (_validate_project_name stdlibSample "my_app" = none
        ↔ specNameAccepted stdlibSample "my_app") :=
  ⟨by decide, validate_project_name_characterization stdlibSample "my_app" (by decide)⟩

/-- The spec's "strict two-component numeric pattern": one or more digits, a
dot, one or more digits — nothing else. -/
def specTwoComponentShape (l : List Char) : Prop :=
  ∃ a b : List Char, a ≠ [] ∧ b ≠ [] ∧ a.all Char.isDigit = true
    ∧ b.all Char.isDigit = true ∧ l = a ++ '.' :: b

lemma takeWhile_digits_append (a b : List Char) (ha : a.all Char.isDigit = true) :
    (a ++ '.' :: b).takeWhile Char.isDigit = a
    ∧ (a ++ '.' :: b).dropWhile Char.isDigit = '.' :: b := by
  induction a with
  | nil =>
    constructor
    · simp [List.takeWhile_cons]
    · simp [List.dropWhile_cons]
  | cons c t ih =>
    simp only [List.all_cons, Bool.and_eq_true] at ha
    have ih2 := ih ha.2
    constructor
    · simp [List.takeWhile_cons, ha.1, ih2.1]
    · simp [List.dropWhile_cons, ha.1, ih2.2]

lemma isDigitsDotDigits_iff (l : List Char) :
    isDigitsDotDigits l = true ↔ specTwoComponentShape l := by
  constructor
  · intro h
    simp only [isDigitsDotDigits, Bool.and_eq_true, Bool.not_eq_true',
      beq_iff_eq] at h
    obtain ⟨⟨⟨h1, h2⟩, h3⟩, h4⟩ := h
    rcases hd : l.dropWhile Char.isDigit with _ | ⟨c, rest⟩
    · rw [hd] at h2
      simp at h2
    · rw [hd] at h2 h3 h4
      simp only [List.head?_cons, Option.some.injEq] at h2
      subst h2
      have hl := List.takeWhile_append_dropWhile (p := Char.isDigit) (l := l)
      rw [hd] at hl
      refine ⟨l.takeWhile Char.isDigit, rest, ?_, ?_, ?_, ?_, hl.symm⟩
      · intro he
        rw [he] at h1
        simp at h1
      · intro he
        rw [List.tail_cons] at h3
        rw [he] at h3
        simp at h3
      · rw [List.all_eq_true]
        intro x hx
        exact List.mem_takeWhile_imp hx
      · simpa using h4
  · rintro ⟨a, b, ha, hb, hda, hdb, rfl⟩
    obtain ⟨ht, hdrop⟩ := takeWhile_digits_append a b hda
    simp [isDigitsDotDigits, ht, hdrop, ha, hb, hdb]

/-- C6 (amended): `_validate_python_version` accepts a string exactly when it
is digits-dot-digits, or digits-dot-digits followed by a single trailing
newline — the extra case comes from Python's `$`, which also matches just
before a final newline.  The model reads `\d` as an ASCII digit, so the
statement is restricted to ASCII inputs, on which the two agree. -/
theorem validate_python_version_characterization (s : String)
    (hascii : ∀ c ∈ s.data, c.toNat < 128) :
    _validate_python_version s = true
      ↔ (specTwoComponentShape s.data
          ∨ (s.data.getLast? = some '\n' ∧ specTwoComponentShape s.data.dropLast)) := by
  simp only [_validate_python_version, pyFullAnchorMatch, Bool.or_eq_true,
    Bool.and_eq_true, beq_iff_eq, isDigitsDotDigits_iff]

/-- C6 counterexample: `"3.14\n"` is accepted by the code although it is not
of the strict digits-dot-digits shape. -/
theorem validate_python_version_cex :
    _validate_python_version "3.14\n" = true
    ∧ ¬ specTwoComponentShape "3.14\n".data := by
  constructor
  · decide
  · intro h
    have h2 := (isDigitsDotDigits_iff "3.14\n".data).mpr h
    exact absurd h2 (by decide)

/-- C6 witness: `"3.13"` is ASCII and the characterization holds there. -/
theorem validate_python_version_characterization_witness :
    (∀ c ∈ "3.13".data, c.toNat < 128)
    ∧ (_validate_python_version "3.13" = true
        ↔ (specTwoComponentShape "3.13".data
            ∨ ("3.13".data.getLast? = some '\n'
                ∧ specTwoComponentShape "3.13".data.dropLast))) :=
  ⟨by decide, validate_python_version_characterization "3.13" (by decide)⟩

/-- The claim's description of the sentinel case, written from its words:
replace every character outside `[A-Za-z0-9_]` with an underscore; use the
built-in default project name if the result is empty; prefix with an
underscore if the result starts with a digit. -/
def specResolvedFromDir (defaultName : String) (base : String) : String :=
  let sanitized := base.data.map sanitizeChar
  if sanitized.isEmpty then defaultName
  else if (sanitized.headD '_').isDigit then ⟨'_' :: sanitized⟩
  else ⟨sanitized⟩

/-- C7: the sentinel `"."` resolves to the sanitized current-directory base
name (with the empty and digit-leading fall-backs) and switches on
current-directory mode; the claim's two examples hold; every non-sentinel
raw name passes through unchanged with current-directory mode off. -/
theorem resolve_name_spec (defaultName base : String) (raw : Option String)
    (hraw : raw ≠ some ".") :
    resolveName defaultName (some ".") base
        = (some (specResolvedFromDir defaultName base), true)
    ∧ resolveName defaultName raw base = (raw, false)
    ∧ resolveName defaultName (some ".") "2cool" = (some "_2cool", true)
    ∧ resolveName defaultName (some ".") "my-app!" = (some "my_app_", true) := by
  refine ⟨?_, ?_, ?_, ?_⟩
  · simp only [resolveName, specResolvedFromDir, if_pos rfl]
    rcases h : base.data.map sanitizeChar with _ | ⟨c, cs⟩
    · simp
    · simp
  · simp [resolveName, hraw]
  · rfl
  · rfl

/-- C7 witness: concrete instantiation with a non-sentinel raw name. -/
theorem resolve_name_spec_witness :
    (some "app" ≠ some "." : Prop)
    ∧ resolveName "myproject" (some "app") "2cool" = (some "app", false) :=
  ⟨by decide, (resolve_name_spec "myproject" "2cool" (some "app") (by decide)).2.1⟩

/-- C10: when both the name and the runtime version are invalid, the single
error `validateConfig` reports is the name error; a version error can only
ever be reported when the name was accepted. -/
theorem validation_name_before_version (stdlibModules : List String)
    (n v : String) (hn : _validate_project_name stdlibModules n ≠ none)
    (hv : _validate_python_version v = false) :
    (∃ e, validateConfig stdlibModules n v = some (.nameInvalid e))
    ∧ ∀ n2 v2, validateConfig stdlibModules n2 v2 = some .versionInvalid →
        _validate_project_name stdlibModules n2 = none := by
  constructor
  · rcases h : _validate_project_name stdlibModules n with _ | e
    · exact absurd h hn
    · exact ⟨e, by simp [validateConfig, h]⟩
  · intro n2 v2 h
    rcases h2 : _validate_project_name stdlibModules n2 with _ | e
    · rfl
    · rw [validateConfig, h2] at h
      simp at h

/-- C10 witness: `"123bad"` / `"banana"` are both invalid and the reported
error is the name error. -/
theorem validation_name_before_version_witness :
    (_validate_project_name stdlibSample "123bad" ≠ none
      ∧ _validate_python_version "banana" = false)
    ∧ (∃ e, validateConfig stdlibSample "123bad" "banana"
        = some (.nameInvalid e)) :=
  ⟨⟨by decide, by decide⟩,
    (validation_name_before_version stdlibSample "123bad" "banana"
      (by decide) (by decide)).1⟩

/-! ## Configuration resolution (src/devstart/cli/main.py, prompts/interactive.py) -/

/-- The CLI-level configuration dict built in `new`: string fields and
feature flags are `None` until resolved (`python` always arrives with a CLI
default but `prompt_for_config` still guards it with an `is None` check, so
it is optional here too). -/
structure RawConfig where
  name : Option String
  description : Option String
  author : Option String
  python : Option String
  ci : Option Bool
  devcontainer : Option Bool
  precommit : Option Bool
  docker : Option Bool
  diagrams : Option Bool
  continueFlag : Option Bool
  useCwd : Bool
deriving Repr, DecidableEq

/-- Modelled from the spec: the built-in default values live in
`devstart/defaults.py`, which is not among the sources, so they are a
parameter of the resolver. -/
structure Defaults where
  name : String
  description : String
  author : String
  python : String
deriving Repr, DecidableEq

/-- Modelled from the spec: a concrete `Defaults` instance.  The default
project name `"myproject"` is pinned by the repository's CLI tests (`devstart
new -y` creates a `myproject/` directory); the other values are placeholders
no theorem's truth depends on. -/
def devstartDefaults : Defaults :=
  { name := "myproject", description := "A Python project",
    author := "Your Name", python := "3.14" }

/-- Python's `x or default` applied to an optional string: `None` and the
empty string are both falsy and are replaced by the default. -/
def orDefault (v : Option String) (d : String) : String :=
  match v with
  | none => d
  | some s => if s = "" then d else s

/-- Embedding of the `-y` (no-interactive) branch of `new`: `name`,
`description` and `author` fall back through Python `or` (so empty strings
are replaced too), and each of the six feature flags is set to `True` only
when it `is None` — an explicitly supplied `False` is kept. -/
def applyDefaults (d : Defaults) (c : RawConfig) : RawConfig :=
  { c with
    name := some (orDefault c.name d.name)
    description := some (orDefault c.description d.description)
    author := some (orDefault c.author d.author)
    ci := some (c.ci.getD true)
    devcontainer := some (c.devcontainer.getD true)
    precommit := some (c.precommit.getD true)
    docker := some (c.docker.getD true)
    diagrams := some (c.diagrams.getD true)
    continueFlag := some (c.continueFlag.getD true) }

/-- One interactive session's worth of user input for `prompt_for_config`:
for each prompt the user either types a value (`some v`) or presses enter
and accepts the prompt's displayed default (`none`).  There is no field for
the `continue` flag because the source never prompts for it. -/
structure PromptAnswers where
  name : Option String
  description : Option String
  author : Option String
  python : Option String
  ci : Option Bool
  devcontainer : Option Bool
  precommit : Option Bool
  docker : Option Bool
  diagrams : Option Bool
deriving Repr, DecidableEq

/-- The session in which the user accepts every prompt's default. -/
def defaultAnswers : PromptAnswers :=
  { name := none, description := none, author := none, python := none,
    ci := none, devcontainer := none, precommit := none, docker := none,
    diagrams := none }

/-- Embedding of `prompt_for_config`: each field that is `None` is filled
from the corresponding prompt (text prompts fall back to the built-in
defaults, confirm prompts to `True`); fields already provided are left
untouched.  The function asks for `name`, `description`, `author`,
`python`, `ci`, `devcontainer`, `precommit`, `docker` and `diagrams` —
and for nothing else: in particular there is no prompt for the `continue`
flag, so that field passes through unchanged. -/
def prompt_for_config (d : Defaults) (ans : PromptAnswers) (c : RawConfig) :
    RawConfig :=
  { c with
    name := some (c.name.getD (ans.name.getD d.name))
    description := some (c.description.getD (ans.description.getD d.description))
    author := some (c.author.getD (ans.author.getD d.author))
    python := some (c.python.getD (ans.python.getD d.python))
    ci := some (c.ci.getD (ans.ci.getD true))
    devcontainer := some (c.devcontainer.getD (ans.devcontainer.getD true))
    precommit := some (c.precommit.getD (ans.precommit.getD true))
    docker := some (c.docker.getD (ans.docker.getD true))
    diagrams := some (c.diagrams.getD (ans.diagrams.getD true)) }

/-! ## Generation engine (src/devstart/generators/project.py) -/

/-- The configuration as `generate_project` consumes it.  The function reads
the dict entries directly and tests the feature flags by truthiness, so the
flags are plain booleans here and `toGenConfig` performs the coercion. -/
structure Config where
  name : String
  description : String
  author : String
  python : String
  ci : Bool
  devcontainer : Bool
  precommit : Bool
  docker : Bool
  diagrams : Bool
  continueFlag : Bool
  useCwd : Bool
deriving Repr, DecidableEq

/-- How `generate_project` reads the possibly-`None` dict values: Python
truthiness turns `None` into `False` for each flag test (`if config["ci"]:`),
and the string fields are read as the strings they hold (an absent name is
rejected by `new` before generation, so `""` never actually occurs). -/
def toGenConfig (c : RawConfig) : Config :=
  { name := c.name.getD ""
    description := c.description.getD ""
    author := c.author.getD ""
    python := c.python.getD ""
    ci := c.ci.getD false
    devcontainer := c.devcontainer.getD false
    precommit := c.precommit.getD false
    docker := c.docker.getD false
    diagrams := c.diagrams.getD false
    continueFlag := c.continueFlag.getD false
    useCwd := c.useCwd }

/-- The filesystem context a generation run starts from: the absolute path of
the current working directory (as components) and the names of the entries
it currently contains. -/
structure Fs where
  cwd : List String
  cwdEntries : List String
deriving Repr, DecidableEq

/-- The failures `generate_project` can raise: the two `FileExistsError`
pre-condition violations, and an `OSError` from a mid-run directory creation
or file write. -/
inductive GenError where
  | destNotEmpty
  | destExists
  | ioError
deriving Repr, DecidableEq

/-- Observable outcome of a run: the files actually written (absolute path
and content, in write order), the `created` list as it stands when the run
returns or aborts, and the error if one was raised. -/
structure GenResult where
  error : Option GenError
  written : List (List String × String)
  created : List (List String)
deriving Repr, DecidableEq

/-- Python `path.relative_to(root)` on component lists: strip the root
prefix, or fail (`ValueError`) when `path` is not below `root`. -/
def relative_to (path root : List String) : Option (List String) :=
  if path.take root.length = root then some (path.drop root.length) else none

/-- The ordered (relative path, content) plan of `generate_project`,
transcribed helper by helper in call order.  Contents come from `_render`
via the opaque `render` parameter (the template bodies live outside the
sources); `tests/__init__.py` is written by `_write_init` with empty
content.

* `_generate_source_tree`: `src/<name>/__init__.py`, `__main__.py`, `main.py`
* `_generate_tests`: `tests/__init__.py`, `conftest.py`, `test_main.py`
* `_generate_root_files`: `pyproject.toml`, `README.md`, `.gitignore`,
  `Makefile`, `.env`
* `_generate_vscode`: `.vscode/launch.json`, `.vscode/settings.json`
* gated groups in source order: `continue`, `docker`, `ci`, `devcontainer`,
  `precommit`, `diagrams`. -/
def projectPlan (render : String → String) (c : Config) :
    List (List String × String) :=
  [(["src", c.name, "__init__.py"], render "base/init.py.j2"),
   (["src", c.name, "__main__.py"], render "base/__main__.py.j2"),
   (["src", c.name, "main.py"], render "base/main.py.j2"),
   (["tests", "__init__.py"], ""),
   (["tests", "conftest.py"], render "base/conftest.py.j2"),
   (["tests", "test_main.py"], render "base/test_main.py.j2"),
   (["pyproject.toml"], render "base/pyproject.toml.j2"),
   (["README.md"], render "base/README.md.j2"),
   ([".gitignore"], render "base/gitignore.j2"),
   (["Makefile"], render "base/Makefile.j2"),
   ([".env"], render "base/env.j2"),
   ([".vscode", "launch.json"], render "base/vscode_launch.json.j2"),
   ([".vscode", "settings.json"], render "base/vscode_settings.json.j2")]
  ++ (if c.continueFlag then
        [([".continue", "config.yaml"], render "base/continue_config.yaml.j2")]
      else [])
  ++ (if c.docker then
        [(["docker", "Dockerfile"], render "docker/Dockerfile.j2"),
         (["docker", "docker-compose.yml"], render "docker/docker-compose.yml.j2"),
         ([".dockerignore"], render "docker/dockerignore.j2")]
      else [])
  ++ (if c.ci then [([".github", "workflows", "ci.yml"], render "ci/ci.yml.j2")]
      else [])
  ++ (if c.devcontainer then
        [([".devcontainer", "devcontainer.json"],
          render "devcontainer/devcontainer.json.j2")]
      else [])
  ++ (if c.precommit then
        [([".pre-commit-config.yaml"],
          render "precommit/pre-commit-config.yaml.j2")]
      else [])
  ++ (if c.diagrams then
        [(["docs", "diagrams", "class_diagram.puml"],
          render "diagrams/class_diagram.puml.j2")]
      else [])

/-- Running state of the write loop: `_write_file`'s effects so far.  Each
`_write_file` call creates the parent directories, writes the content, and
only then appends `path.relative_to(root)` to `created`. -/
structure WState where
  written : List (List String × String)
  created : List (List String)
deriving Repr, DecidableEq

/-- The write loop of `generate_project`: one `_write_file` per planned pair,
in plan order.  `failAt` says on which absolute paths the directory creation
or `write_text` raises `OSError`; a failure aborts the run at that point,
leaving the state as it stood (the failed file is not written and not
appended).  A `relative_to` failure (impossible here, since every path is
built under `root`) would abort after the write but before the append. -/
def runWrites (failAt : List String → Bool) (root : List String) :
    List (List String × String) → WState → WState × Option GenError
  | [], st => (st, none)
  | (rel, content) :: rest, st =>
    let path := root ++ rel
    if failAt path then (st, some .ioError)
    else
      match relative_to path root with
      | none => ({ st with written := st.written ++ [(path, content)] }, some .ioError)
      | some r =>
        runWrites failAt root rest
          { written := st.written ++ [(path, content)],
            created := st.created ++ [r] }

/-- The destination root `generate_project` resolves: the current working
directory in current-directory mode, else `cwd / name`. -/
def genRoot (fs : Fs) (c : Config) : List String :=
  if c.useCwd then fs.cwd else fs.cwd ++ [c.name]

/-- Embedding of `generate_project`.  In current-directory mode it raises
`FileExistsError` (destination not empty) when the working directory holds
any entry whose name is not `".git"`; otherwise it raises `FileExistsError`
(destination exists) when `cwd / name` already exists as a file or
directory, i.e. when `name` is among the working directory's entries.  Both
checks happen before any write.  On success it runs the write loop over the
plan and returns the `created` list. -/
def generate_project (render : String → String) (failAt : List String → Bool)
    (fs : Fs) (c : Config) : GenResult :=
  if c.useCwd then
    if fs.cwdEntries.any (fun p => p ≠ ".git") then
      { error := some .destNotEmpty, written := [], created := [] }
    else
      let r := runWrites failAt fs.cwd (projectPlan render c) ⟨[], []⟩
      { error := r.2, written := r.1.written, created := r.1.created }
  else
    if c.name ∈ fs.cwdEntries then
      { error := some .destExists, written := [], created := [] }
    else
      let r := runWrites failAt (fs.cwd ++ [c.name]) (projectPlan render c) ⟨[], []⟩
      { error := r.2, written := r.1.written, created := r.1.created }

lemma take_len_append {α : Type} (l r : List α) : (l ++ r).take l.length = l := by
  induction l with
  | nil => rfl
  | cons a t ih => simp [ih]

lemma drop_len_append {α : Type} (l r : List α) : (l ++ r).drop l.length = r := by
  induction l with
  | nil => rfl
  | cons a t ih => simp [ih]

lemma rel_to_append (root rel : List String) :
    relative_to (root ++ rel) root = some rel := by
  simp [relative_to, take_len_append, drop_len_append]

lemma runWrites_cons_fail (failAt : List String → Bool) (root rel : List String)
    (content : String) (rest : List (List String × String)) (st : WState)
    (hf : failAt (root ++ rel) = true) :
    runWrites failAt root ((rel, content) :: rest) st = (st, some .ioError) := by
  simp [runWrites, hf]

lemma runWrites_cons_ok (failAt : List String → Bool) (root rel : List String)
    (content : String) (rest : List (List String × String)) (st : WState)
    (hf : failAt (root ++ rel) = false) :
    runWrites failAt root ((rel, content) :: rest) st
      = runWrites failAt root rest
          ⟨st.written ++ [(root ++ rel, content)], st.created ++ [rel]⟩ := by
  simp [runWrites, hf, rel_to_append]

lemma runWrites_ok (failAt : List String → Bool) (root : List String)
    (plan : List (List String × String)) (st : WState)
    (h : (runWrites failAt root plan st).2 = none) :
    (runWrites failAt root plan st).1.created
      = st.created ++ plan.map Prod.fst := by
  induction plan generalizing st with
  | nil => simp [runWrites]
  | cons pc rest ih =>
    obtain ⟨rel, content⟩ := pc
    by_cases hf : failAt (root ++ rel)
    · rw [runWrites_cons_fail _ _ _ _ _ _ hf] at h
      simp at h
    · rw [runWrites_cons_ok _ _ _ _ _ _ (by simpa using hf)] at h ⊢
      rw [ih _ h]
      simp

lemma runWrites_no_fail (root : List String)
    (plan : List (List String × String)) (st : WState) :
    (runWrites (fun _ => false) root plan st).2 = none := by
  induction plan generalizing st with
  | nil => simp [runWrites]
  | cons pc rest ih =>
    obtain ⟨rel, content⟩ := pc
    rw [runWrites_cons_ok _ _ _ _ _ _ rfl]
    exact ih _

lemma runWrites_tracks (failAt : List String → Bool) (root : List String)
    (plan : List (List String × String)) (st : WState)
    (h : st.created = st.written.map (fun w => w.1.drop root.length)) :
    (runWrites failAt root plan st).1.created
      = (runWrites failAt root plan st).1.written.map
          (fun w => w.1.drop root.length) := by
  induction plan generalizing st with
  | nil => simpa [runWrites] using h
  | cons pc rest ih =>
    obtain ⟨rel, content⟩ := pc
    by_cases hf : failAt (root ++ rel)
    · rw [runWrites_cons_fail _ _ _ _ _ _ hf]
      exact h
    · rw [runWrites_cons_ok _ _ _ _ _ _ (by simpa using hf)]
      apply ih
      simp [h, drop_len_append]

lemma runWrites_created_mem (failAt : List String → Bool) (root : List String)
    (plan : List (List String × String)) (st : WState) :
    ∀ p ∈ (runWrites failAt root plan st).1.created,
      p ∈ st.created ∨ p ∈ plan.map Prod.fst := by
  induction plan generalizing st with
  | nil =>
    intro p hp
    simp only [runWrites] at hp
    exact Or.inl hp
  | cons pc rest ih =>
    obtain ⟨rel, content⟩ := pc
    intro p hp
    by_cases hf : failAt (root ++ rel)
    · rw [runWrites_cons_fail _ _ _ _ _ _ hf] at hp
      exact Or.inl hp
    · rw [runWrites_cons_ok _ _ _ _ _ _ (by simpa using hf)] at hp
      rcases ih _ p hp with hin | hin
      · rcases List.mem_append.mp hin with h1 | h1
        · exact Or.inl h1
        · simp only [List.mem_singleton] at h1
          subst h1
          exact Or.inr (by simp)
      · exact Or.inr (by simp [hin])

/-- C1: whenever a run returns (raises no error), the `created` list is
exactly the thirteen always-generated relative paths — three source-package
files, three test files, five root-level files, two editor-config files —
followed by precisely the groups whose flag is true, in the source's fixed
emission order: AI assistant (1 file), containerization (3 files), CI
(1 file), devcontainer (1 file), pre-commit (1 file), diagrams (1 file). -/
theorem generate_project_emits_exact_file_set (render : String → String)
    (failAt : List String → Bool) (fs : Fs) (c : Config)
    (h : (generate_project render failAt fs c).error = none) :
    (generate_project render failAt fs c).created
      = [["src", c.name, "__init__.py"], ["src", c.name, "__main__.py"],
         ["src", c.name, "main.py"],
         ["tests", "__init__.py"], ["tests", "conftest.py"],
         ["tests", "test_main.py"],
         ["pyproject.toml"], ["README.md"], [".gitignore"], ["Makefile"],
         [".env"],
         [".vscode", "launch.json"], [".vscode", "settings.json"]]
        ++ (if c.continueFlag then [[".continue", "config.yaml"]] else [])
        ++ (if c.docker then
              [["docker", "Dockerfile"], ["docker", "docker-compose.yml"],
               [".dockerignore"]]
            else [])
        ++ (if c.ci then [[".github", "workflows", "ci.yml"]] else [])
        ++ (if c.devcontainer then [[".devcontainer", "devcontainer.json"]]
            else [])
        ++ (if c.precommit then [[".pre-commit-config.yaml"]] else [])
        ++ (if c.diagrams then [["docs", "diagrams", "class_diagram.puml"]]
            else []) := by
  unfold generate_project at h ⊢
  by_cases hcwd : c.useCwd
  · rw [if_pos hcwd] at h ⊢
    by_cases hne : fs.cwdEntries.any (fun p => p ≠ ".git")
    · rw [if_pos hne] at h
      exact absurd h (by simp)
    · rw [if_neg hne] at h ⊢
      dsimp only at h ⊢
      rw [runWrites_ok _ _ _ _ h]
      simp [projectPlan,
        apply_ite (List.map (Prod.fst : List String × String → List String))]
  · rw [if_neg hcwd] at h ⊢
    by_cases hex : c.name ∈ fs.cwdEntries
    · rw [if_pos hex] at h
      exact absurd h (by simp)
    · rw [if_neg hex] at h ⊢
      dsimp only at h ⊢
      rw [runWrites_ok _ _ _ _ h]
      simp [projectPlan,
        apply_ite (List.map (Prod.fst : List String × String → List String))]

/-- A fully-populated configuration with every feature enabled, matching the
repository's `full_config` test fixture. -/
def cfgFull : Config :=
  { name := "testproject", description := "A test project",
    author := "Test Author", python := "3.14", ci := true,
    devcontainer := true, precommit := true, docker := true, diagrams := true,
    continueFlag := true, useCwd := false }

/-- A minimal configuration generating into a subdirectory. -/
def cfgSubdir : Config :=
  { name := "proj", description := "d", author := "a", python := "3.14",
    ci := false, devcontainer := false, precommit := false, docker := false,
    diagrams := false, continueFlag := false, useCwd := false }

/-- The same minimal configuration in current-directory mode. -/
def cfgCwd : Config :=
  { name := "proj", description := "d", author := "a", python := "3.14",
    ci := false, devcontainer := false, precommit := false, docker := false,
    diagrams := false, continueFlag := false, useCwd := true }

/-- C1 witness: a clean run with everything enabled produces exactly the
planned file set. -/
theorem generate_project_emits_exact_file_set_witness :
    (generate_project (fun _ => "") (fun _ => false) ⟨["home"], []⟩ cfgFull).error
        = none
    ∧ (generate_project (fun _ => "") (fun _ => false) ⟨["home"], []⟩ cfgFull).created
        = [["src", cfgFull.name, "__init__.py"], ["src", cfgFull.name, "__main__.py"],
           ["src", cfgFull.name, "main.py"],
           ["tests", "__init__.py"], ["tests", "conftest.py"],
           ["tests", "test_main.py"],
           ["pyproject.toml"], ["README.md"], [".gitignore"], ["Makefile"],
           [".env"],
           [".vscode", "launch.json"], [".vscode", "settings.json"]]
          ++ (if cfgFull.continueFlag then [[".continue", "config.yaml"]] else [])
          ++ (if cfgFull.docker then
                [["docker", "Dockerfile"], ["docker", "docker-compose.yml"],
                 [".dockerignore"]]
              else [])
          ++ (if cfgFull.ci then [[".github", "workflows", "ci.yml"]] else [])
          ++ (if cfgFull.devcontainer then [[".devcontainer", "devcontainer.json"]]
              else [])
          ++ (if cfgFull.precommit then [[".pre-commit-config.yaml"]] else [])
          ++ (if cfgFull.diagrams then [["docs", "diagrams", "class_diagram.puml"]]
              else []) :=
  ⟨rfl,
    generate_project_emits_exact_file_set (fun _ => "") (fun _ => false)
      ⟨["home"], []⟩ cfgFull rfl⟩

/-- C2: both destination pre-conditions abort before any write — a
subdirectory name that already exists (as a file or directory it is an entry
of the working directory either way) raises the destination-exists error
with nothing written; a non-`.git` entry in current-directory mode raises
the destination-not-empty error with nothing written; and a working
directory containing only `.git` entries generates successfully. -/
theorem generate_project_destination_precondition (render : String → String)
    (failAt : List String → Bool) (fs : Fs) (c : Config) :
    (c.useCwd = false → c.name ∈ fs.cwdEntries →
      generate_project render failAt fs c
        = { error := some .destExists, written := [], created := [] })
    ∧ (c.useCwd = true → (∃ p ∈ fs.cwdEntries, p ≠ ".git") →
      generate_project render failAt fs c
        = { error := some .destNotEmpty, written := [], created := [] })
    ∧ (c.useCwd = true → (∀ p ∈ fs.cwdEntries, p = ".git") →
      (generate_project render (fun _ => false) fs c).error = none) := by
  refine ⟨?_, ?_, ?_⟩
  · intro hcwd hex
    rw [generate_project, if_neg (by simp [hcwd]), if_pos hex]
  · intro hcwd hne
    have hany : fs.cwdEntries.any (fun p => p ≠ ".git") = true := by
      rw [List.any_eq_true]
      obtain ⟨p, hp, hnp⟩ := hne
      exact ⟨p, hp, by simpa using hnp⟩
    rw [generate_project, if_pos hcwd, if_pos hany]
  · intro hcwd hall
    have hany : fs.cwdEntries.any (fun p => p ≠ ".git") = false := by
      rw [List.any_eq_false]
      intro p hp
      simpa using hall p hp
    rw [generate_project, if_pos hcwd, if_neg (by rw [hany]; simp)]
    exact runWrites_no_fail _ _ _

/-- C2 witness: the three pre-condition cases at concrete filesystems. -/
theorem generate_project_destination_precondition_witness :
    generate_project (fun _ => "") (fun _ => false) ⟨["home"], ["proj"]⟩ cfgSubdir
      = { error := some .destExists, written := [], created := [] }
    ∧ generate_project (fun _ => "") (fun _ => false) ⟨["home"], ["notes.txt"]⟩
        cfgCwd
      = { error := some .destNotEmpty, written := [], created := [] }
    ∧ (generate_project (fun _ => "") (fun _ => false) ⟨["home"], [".git"]⟩
        cfgCwd).error = none :=
  ⟨(generate_project_destination_precondition (fun _ => "") (fun _ => false)
      ⟨["home"], ["proj"]⟩ cfgSubdir).1 rfl (by decide),
   (generate_project_destination_precondition (fun _ => "") (fun _ => false)
      ⟨["home"], ["notes.txt"]⟩ cfgCwd).2.1 rfl ⟨"notes.txt", by decide, by decide⟩,
   (generate_project_destination_precondition (fun _ => "") (fun _ => false)
      ⟨["home"], [".git"]⟩ cfgCwd).2.2 rfl (by decide)⟩

/-- C9: at every point of every run — including runs aborted by a mid-write
filesystem failure and runs stopped by a pre-condition — the `created` list
is exactly the root-relative paths of the files written so far, in write
order: each entry is appended only after the corresponding content is
written, and nothing else ever enters the list. -/
theorem generate_project_created_tracks_writes (render : String → String)
    (failAt : List String → Bool) (fs : Fs) (c : Config) :
    (generate_project render failAt fs c).created
      = (generate_project render failAt fs c).written.map
          (fun w => w.1.drop (genRoot fs c).length) := by
  unfold generate_project genRoot
  by_cases hcwd : c.useCwd
  · rw [if_pos hcwd, if_pos hcwd]
    by_cases hne : fs.cwdEntries.any (fun p => p ≠ ".git")
    · rw [if_pos hne]
      rfl
    · rw [if_neg hne]
      exact runWrites_tracks _ _ _ _ rfl
  · rw [if_neg hcwd, if_neg hcwd]
    by_cases hex : c.name ∈ fs.cwdEntries
    · rw [if_pos hex]
      rfl
    · rw [if_neg hex]
      exact runWrites_tracks _ _ _ _ rfl

lemma continue_not_in_plan (render : String → String) (c : Config)
    (h : c.continueFlag = false) :
    [".continue", "config.yaml"] ∉ (projectPlan render c).map Prod.fst := by
  by_cases h1 : c.docker <;> by_cases h2 : c.ci <;>
    by_cases h3 : c.devcontainer <;> by_cases h4 : c.precommit <;>
    by_cases h5 : c.diagrams <;>
    simp [projectPlan, h, h1, h2, h3, h4, h5]

lemma generate_no_continue (render : String → String)
    (failAt : List String → Bool) (fs : Fs) (c : Config)
    (h : c.continueFlag = false) :
    [".continue", "config.yaml"] ∉ (generate_project render failAt fs c).created := by
  intro hp
  unfold generate_project at hp
  by_cases hcwd : c.useCwd
  · rw [if_pos hcwd] at hp
    by_cases hne : fs.cwdEntries.any (fun p => p ≠ ".git")
    · rw [if_pos hne] at hp
      simp at hp
    · rw [if_neg hne] at hp
      rcases runWrites_created_mem _ _ _ _ _ hp with hin | hin
      · simp at hin
      · exact continue_not_in_plan render c h hin
  · rw [if_neg hcwd] at hp
    by_cases hex : c.name ∈ fs.cwdEntries
    · rw [if_pos hex] at hp
      simp at hp
    · rw [if_neg hex] at hp
      rcases runWrites_created_mem _ _ _ _ _ hp with hin | hin
      · simp at hin
      · exact continue_not_in_plan render c h hin

/-- C4: the interactive resolver never touches the `continue` flag — if it
was not supplied on the command line (`none`), it is still `none` after
`prompt_for_config`, whatever the user answers; `generate_project` then
reads it by truthiness as `false`, so the AI-assistant file is never among
the created paths; the other five feature flags, by contrast, are each
prompted, and accepting the prompt's default sets them to `true`. -/
theorem prompt_for_config_skips_continue (d : Defaults) (ans : PromptAnswers)
    (c : RawConfig) (h : c.continueFlag = none) :
    (prompt_for_config d ans c).continueFlag = none
    ∧ (toGenConfig (prompt_for_config d ans c)).continueFlag = false
    ∧ (∀ (render : String → String) (failAt : List String → Bool) (fs : Fs),
        [".continue", "config.yaml"]
          ∉ (generate_project render failAt fs
              (toGenConfig (prompt_for_config d ans c))).created)
    ∧ (c.ci = none → (prompt_for_config d defaultAnswers c).ci = some true)
    ∧ (c.devcontainer = none →
        (prompt_for_config d defaultAnswers c).devcontainer = some true)
    ∧ (c.precommit = none →
        (prompt_for_config d defaultAnswers c).precommit = some true)
    ∧ (c.docker = none → (prompt_for_config d defaultAnswers c).docker = some true)
    ∧ (c.diagrams = none →
        (prompt_for_config d defaultAnswers c).diagrams = some true) := by
  refine ⟨by simp [prompt_for_config, h], by simp [prompt_for_config, toGenConfig, h],
    ?_, ?_, ?_, ?_, ?_, ?_⟩
  · intro render failAt fs
    exact generate_no_continue render failAt fs _
      (by simp [prompt_for_config, toGenConfig, h])
  · intro hci
    simp [prompt_for_config, defaultAnswers, hci]
  · intro hdc
    simp [prompt_for_config, defaultAnswers, hdc]
  · intro hpc
    simp [prompt_for_config, defaultAnswers, hpc]
  · intro hdk
    simp [prompt_for_config, defaultAnswers, hdk]
  · intro hdg
    simp [prompt_for_config, defaultAnswers, hdg]

/-- An interactive-path CLI configuration with no flags supplied, as built by
`new` for `devstart new myapp` without options. -/
def rawCfgInteractive : RawConfig :=
  { name := some "myapp", description := none, author := none,
    python := some "3.14", ci := none, devcontainer := none, precommit := none,
    docker := none, diagrams := none, continueFlag := none, useCwd := false }

/-- C4 witness: with no flags supplied and every prompt answered by its
default, `continue` stays `none` and the AI-assistant file is not created. -/
theorem prompt_for_config_skips_continue_witness :
    rawCfgInteractive.continueFlag = none
    ∧ (prompt_for_config devstartDefaults defaultAnswers rawCfgInteractive).continueFlag
        = none
    ∧ [".continue", "config.yaml"]
        ∉ (generate_project (fun _ => "") (fun _ => false) ⟨["home"], []⟩
            (toGenConfig
              (prompt_for_config devstartDefaults defaultAnswers
                rawCfgInteractive))).created
    ∧ (prompt_for_config devstartDefaults defaultAnswers rawCfgInteractive).ci
        = some true :=
  ⟨rfl,
   (prompt_for_config_skips_continue devstartDefaults defaultAnswers
      rawCfgInteractive rfl).1,
   (prompt_for_config_skips_continue devstartDefaults defaultAnswers
      rawCfgInteractive rfl).2.2.1 (fun _ => "") (fun _ => false) ⟨["home"], []⟩,
   (prompt_for_config_skips_continue devstartDefaults defaultAnswers
      rawCfgInteractive rfl).2.2.2.1 rfl⟩

/-- C8 (amended): the `-y` defaulting step leaves an already-complete
configuration unchanged, provided its `name`, `description` and `author` are
non-empty — Python's `or` treats a set-but-empty string as absent and would
replace it — and every feature flag is an explicit boolean (flags set to
`False` are kept, since they are guarded by `is None` checks). -/
theorem applyDefaults_idempotent_on_complete (d : Defaults) (c : RawConfig)
    (hn : ∃ s, c.name = some s ∧ s ≠ "")
    (hde : ∃ s, c.description = some s ∧ s ≠ "")
    (ha : ∃ s, c.author = some s ∧ s ≠ "")
    (hci : c.ci ≠ none) (hdc : c.devcontainer ≠ none)
    (hpc : c.precommit ≠ none) (hdk : c.docker ≠ none)
    (hdg : c.diagrams ≠ none) (hct : c.continueFlag ≠ none) :
    applyDefaults d c = c := by
  obtain ⟨n, hn1, hn2⟩ := hn
  obtain ⟨de, hde1, hde2⟩ := hde
  obtain ⟨a, ha1, ha2⟩ := ha
  rcases hb1 : c.ci with _ | b1
  · exact absurd hb1 hci
  rcases hb2 : c.devcontainer with _ | b2
  · exact absurd hb2 hdc
  rcases hb3 : c.precommit with _ | b3
  · exact absurd hb3 hpc
  rcases hb4 : c.docker with _ | b4
  · exact absurd hb4 hdk
  rcases hb5 : c.diagrams with _ | b5
  · exact absurd hb5 hdg
  rcases hb6 : c.continueFlag with _ | b6
  · exact absurd hb6 hct
  cases c
  simp_all [applyDefaults, orDefault]

/-- A configuration that is complete in the claim's sense — every field set,
every flag an explicit boolean — but whose `name` is the empty string. -/
def cexCompleteConfig : RawConfig :=
  { name := some "", description := some "A test", author := some "Me",
    python := some "3.14", ci := some true, devcontainer := some true,
    precommit := some false, docker := some true, diagrams := some true,
    continueFlag := some false, useCwd := false }

/-- C8 counterexample: on this complete configuration the defaulting step is
not a no-op — Python's `or` sees the set-but-empty name as falsy and
replaces it with the default project name. -/
theorem applyDefaults_empty_name_cex :
    (cexCompleteConfig.name ≠ none ∧ cexCompleteConfig.description ≠ none
      ∧ cexCompleteConfig.author ≠ none ∧ cexCompleteConfig.ci ≠ none
      ∧ cexCompleteConfig.devcontainer ≠ none
      ∧ cexCompleteConfig.precommit ≠ none ∧ cexCompleteConfig.docker ≠ none
      ∧ cexCompleteConfig.diagrams ≠ none
      ∧ cexCompleteConfig.continueFlag ≠ none)
    ∧ applyDefaults devstartDefaults cexCompleteConfig ≠ cexCompleteConfig
    ∧ (applyDefaults devstartDefaults cexCompleteConfig).name
        = some "myproject" := by
  refine ⟨⟨?_, ?_, ?_, ?_, ?_, ?_, ?_, ?_, ?_⟩, ?_, ?_⟩ <;> decide

/-- A complete configuration with non-empty strings and some flags
explicitly `false`. -/
def wCompleteConfig : RawConfig :=
  { name := some "app", description := some "d", author := some "a",
    python := some "3.14", ci := some false, devcontainer := some true,
    precommit := some false, docker := some false, diagrams := some true,
    continueFlag := some false, useCwd := false }

/-- C8 witness: the amended hypotheses hold of `wCompleteConfig` and the
defaulting step leaves it unchanged, `false` flags included. -/
theorem applyDefaults_idempotent_witness :
    (∃ s, wCompleteConfig.name = some s ∧ s ≠ "")
    ∧ applyDefaults devstartDefaults wCompleteConfig = wCompleteConfig :=
  ⟨⟨"app", rfl, by decide⟩,
   applyDefaults_idempotent_on_complete devstartDefaults wCompleteConfig
     ⟨"app", rfl, by decide⟩ ⟨"d", rfl, by decide⟩ ⟨"a", rfl, by decide⟩
     (by decide) (by decide) (by decide) (by decide) (by decide) (by decide)⟩
